import Mathlib

/-!
Shallow embedding of `ZEDv1_plotter/ZEDv1_pltview.py`.

The file has three parts, mirroring the script:

* the depth-to-color gradient of the vertex shader string
  `POINTCLOUD_VERTEX_SHADER` (lines 10-45), interpreted over exact
  rational arithmetic;
* the configuration function `parse_args` (lines 58-95), which selects
  the input source from `--input_svo_file` / `--ip_address` and the
  camera resolution from `--resolution`;
* the `main` loop (lines 109-218) and the `__main__` entry guard
  (lines 221-232), modelled as a step function on the two process-local
  scalars (the recording flag and the frame counter), driven by a list
  of per-iteration viewer/SDK inputs, with console prints recorded as
  an abstract log.
-/

/-! ### Part 1: the shader color gradient (lines 16-44 of the script) -/

/-- An RGB triple with exact rational channels, standing for the GLSL
`vec3 color` of the vertex shader. -/
structure RGB where
  r : ℚ
  g : ℚ
  b : ℚ
  deriving DecidableEq, Repr

/-- GLSL `min` on rationals. -/
def minQ (a b : ℚ) : ℚ := if a ≤ b then a else b

/-- GLSL `max` on rationals. -/
def maxQ (a b : ℚ) : ℚ := if a ≤ b then b else a

/-- GLSL `clamp(x, lo, hi) = min(max(x, lo), hi)`. -/
def clampQ (x lo hi : ℚ) : ℚ := minQ (maxQ x lo) hi

/-- `float min_depth = 0.5;` (line 22). -/
def min_depth : ℚ := 1/2

/-- `float max_depth = 10.0;` (line 23). -/
def max_depth : ℚ := 10

/-- `float normalized_depth = clamp((depth - min_depth) / (max_depth - min_depth), 0.0, 1.0);`
(line 26). -/
def normalized_depth (depth : ℚ) : ℚ :=
  clampQ ((depth - min_depth) / (max_depth - min_depth)) 0 1

/-- First branch (lines 29-31): `color = vec3(1.0, normalized_depth * 3.0, 0.0);`. -/
def segRedToYellow (nd : ℚ) : RGB := ⟨1, nd * 3, 0⟩

/-- Second branch (lines 32-35): `float t = (normalized_depth - 0.33) * 3.0;
color = vec3(1.0 - t, 1.0, t);`. -/
def segYellowToCyan (nd : ℚ) : RGB :=
  let t := (nd - 33/100) * 3
  ⟨1 - t, 1, t⟩

/-- Third branch (lines 36-40): `float t = (normalized_depth - 0.67) * 3.0;
color = vec3(0.0, 1.0 - t, 1.0);`. -/
def segCyanToBlue (nd : ℚ) : RGB :=
  let t := (nd - 67/100) * 3
  ⟨0, 1 - t, 1⟩

/-- The full gradient of the vertex shader (lines 26-40): normalize and clamp
the depth, then select one of the three segment formulas by the `0.33` / `0.67`
breakpoints. -/
def shaderColor (depth : ℚ) : RGB :=
  let nd := normalized_depth depth
  if nd < 33/100 then segRedToYellow nd
  else if nd < 67/100 then segYellowToCyan nd
  else segCyanToBlue nd

/-- Componentwise linear interpolation from `a` at parameter `0` to `b` at
parameter `1`. -/
def lerpRGB (a b : RGB) (t : ℚ) : RGB :=
  ⟨a.r + t * (b.r - a.r), a.g + t * (b.g - a.g), a.b + t * (b.b - a.b)⟩

/-- Pure red `(1, 0, 0)`. -/
def pureRed : RGB := ⟨1, 0, 0⟩

/-- Pure yellow `(1, 1, 0)`. -/
def pureYellow : RGB := ⟨1, 1, 0⟩

/-- Pure cyan `(0, 1, 1)`. -/
def pureCyan : RGB := ⟨0, 1, 1⟩

/-- Pure blue `(0, 0, 1)`. -/
def pureBlue : RGB := ⟨0, 0, 1⟩

/-- Reference gradient stated by the spec: on each of the three segments the
output interpolates linearly from the start color at the left breakpoint all
the way to the end color at the right breakpoint (red to yellow on
`[0, 0.33)`, yellow to cyan on `[0.33, 0.67)`, cyan to blue on `[0.67, 1]`).
This follows the words of the spec, to be compared with `shaderColor`. -/
def specGradient (depth : ℚ) : RGB :=
  let nd := clampQ ((depth - 1/2) / (10 - 1/2)) 0 1
  if nd < 33/100 then lerpRGB pureRed pureYellow (nd / (33/100))
  else if nd < 67/100 then lerpRGB pureYellow pureCyan ((nd - 33/100) / (67/100 - 33/100))
  else lerpRGB pureCyan pureBlue ((nd - 67/100) / (1 - 67/100))

/-- Amended reference gradient: on each segment the output interpolates
linearly from the segment's start color toward its end color at rate `3` per
unit of normalized depth, so the end color would be reached at the left
breakpoint plus `1/3`, not at the segment's right breakpoint. -/
def amendedGradient (depth : ℚ) : RGB :=
  let nd := clampQ ((depth - 1/2) / (10 - 1/2)) 0 1
  if nd < 33/100 then lerpRGB pureRed pureYellow (nd * 3)
  else if nd < 67/100 then lerpRGB pureYellow pureCyan ((nd - 33/100) * 3)
  else lerpRGB pureCyan pureBlue ((nd - 67/100) * 3)

/-! ### Part 2: `parse_args` (lines 58-95 of the script) -/

/-- Python substring containment on lists of characters: the needle occurs
contiguously somewhere in the haystack. -/
def isSubstring (needle hay : List Char) : Bool :=
  match hay with
  | [] => needle.isEmpty
  | _ :: t => needle.isPrefixOf hay || isSubstring needle t

/-- Python `needle in hay` for strings. -/
def pyIn (needle hay : String) : Bool := isSubstring needle.toList hay.toList

/-- Python `s.endswith(suf)`. -/
def pyEndsWith (s suf : String) : Bool :=
  suf.toList.reverse.isPrefixOf s.toList.reverse

/-- Python `s.replace(c, "")` for a one-character pattern: delete every
occurrence of `c`. -/
def pyRemove (s : String) (c : Char) : String :=
  ⟨s.toList.filter (fun a => a ≠ c)⟩

/-- Python `s.split(c)` for a one-character separator (on the empty string it
yields one empty field, as in Python). -/
def pySplit (s : String) (c : Char) : List String :=
  s.split (fun a => a = c)

/-- Python `s.isdigit()` restricted to ASCII digits: nonempty and all digits. -/
def pyIsDigit (s : String) : Bool :=
  !s.isEmpty && s.toList.all Char.isDigit

/-- The input source selected on the `init` parameters by `parse_args`:
either nothing is configured (the default live wired camera), or
`set_from_svo_file(path)`, or `set_from_stream(host, port)` (the port is kept
as the raw digit string the script passes to `int`), or `set_from_stream(ip)`. -/
inductive InputSource
  | liveDefault
  | svoFile (path : String)
  | streamWithPort (host portDigits : String)
  | streamNoPort (ip : String)
  deriving DecidableEq, Repr

/-- The camera resolution constants `sl.RESOLUTION.*` used by the script,
with `AUTO` standing for the SDK default left in place when `parse_args`
does not assign `init.camera_resolution`. -/
inductive Resolution
  | HD2K
  | HD1200
  | HD1080
  | HD720
  | SVGA
  | VGA
  | AUTO
  deriving DecidableEq, Repr

/-- Lines 60-72 of `parse_args`: select the input source from
`opt.input_svo_file` and `opt.ip_address`, returning it together with the
console prints of that block. -/
def parseArgsInput (input_svo_file ip_address : String) : InputSource × List String :=
  if input_svo_file.length > 0 && pyEndsWith input_svo_file ".svo" then
    (.svoFile input_svo_file, ["[Sample] Using SVO File input: " ++ input_svo_file])
  else if ip_address.length > 0 then
    if pyIsDigit (pyRemove (pyRemove ip_address ':') '.')
        && (pySplit ip_address '.').length = 4 && (pySplit ip_address ':').length = 2 then
      (.streamWithPort ((pySplit ip_address ':').getD 0 "") ((pySplit ip_address ':').getD 1 ""),
        ["[Sample] Using Stream input, IP: " ++ ip_address])
    else if pyIsDigit (pyRemove (pyRemove ip_address ':') '.')
        && (pySplit ip_address '.').length = 4 then
      (.streamNoPort ip_address, ["[Sample] Using Stream input, IP: " ++ ip_address])
    else
      (.liveDefault, ["Invalid IP format. Using live stream"])
  else
    (.liveDefault, [])

/-- Lines 74-95 of `parse_args`: the `elif` chain on `opt.resolution`,
updating `init.camera_resolution` (held in `current`) and printing one
message. -/
def parseArgsResolution (resolution : String) (current : Resolution) :
    Resolution × List String :=
  if pyIn "HD2K" resolution then
    (.HD2K, ["[Sample] Using Camera in resolution HD2K"])
  else if pyIn "HD1200" resolution then
    (.HD1200, ["[Sample] Using Camera in resolution HD1200"])
  else if pyIn "HD1080" resolution then
    (.HD1080, ["[Sample] Using Camera in resolution HD1080"])
  else if pyIn "HD720" resolution then
    (.HD720, ["[Sample] Using Camera in resolution HD720"])
  else if pyIn "SVGA" resolution then
    (.SVGA, ["[Sample] Using Camera in resolution SVGA"])
  else if pyIn "VGA" resolution then
    (.VGA, ["[Sample] Using Camera in resolution VGA"])
  else if resolution.length > 0 then
    (current, ["[Sample] No valid resolution entered. Using default"])
  else
    (current, ["[Sample] Using default resolution"])

/-- The whole of `parse_args` (lines 58-95): input-source selection followed
by the resolution chain. -/
def parse_args (input_svo_file ip_address resolution : String) (current : Resolution) :
    InputSource × Resolution × List String :=
  let (src, logs1) := parseArgsInput input_svo_file ip_address
  let (res, logs2) := parseArgsResolution resolution current
  (src, res, logs1 ++ logs2)

/-- First name of `tests`, in order, that occurs as a substring of `arg`. -/
def firstMatch (tests : List (String × Resolution)) (arg : String) : Option Resolution :=
  match tests with
  | [] => none
  | (name, res) :: rest => if pyIn name arg then some res else firstMatch rest arg

/-- Reference resolution mapping stated by the claim: the first of the six
names, tested in the order HD2K, HD1200, HD1080, HD720, SVGA, VGA, that is
contained in the argument determines the resolution; any other argument
leaves the current resolution unchanged. This follows the words of the
claim, to be compared with `parseArgsResolution`. -/
def resolutionSpec (arg : String) (current : Resolution) : Resolution :=
  (firstMatch
    [("HD2K", .HD2K), ("HD1200", .HD1200), ("HD1080", .HD1080),
      ("HD720", .HD720), ("SVGA", .SVGA), ("VGA", .VGA)] arg).getD current

/-! ### Part 3: the `main` loop and the `__main__` guard -/

/-- An SDK status code: `sl.ERROR_CODE.SUCCESS` or any failing code. -/
inductive ErrorCode
  | SUCCESS
  | FAILURE (code : Nat)
  deriving DecidableEq, Repr

/-- The external observations one iteration of the `while` loop reacts to:
whether `zed.grab()` returned `SUCCESS`, the `viewer.save_data` flag, whether
`viewer` has a `key_pressed` attribute and its value (as a code point), and
the status codes returned by the two `point_cloud_to_save.write` calls (the
one-shot save of lines 173-187 and the continuous save of lines 200-213). -/
structure ViewerInput where
  grabOk : Bool
  saveData : Bool
  hasKeyAttr : Bool
  keyPressed : Nat
  saveErr : ErrorCode
  recordErr : ErrorCode
  deriving DecidableEq, Repr

/-- The process-local cross-iteration state of `main`: the
`recording_enabled` flag and the `frame_count` counter (lines 160-161,
initialized to `False` and `0`). -/
structure LoopState where
  recording_enabled : Bool
  frame_count : Int
  deriving DecidableEq, Repr

/-- The console prints of `main`, abstracted. -/
inductive LogEvent
  | openError (status : ErrorCode)
  | pointCloudSaved
  | saveFailed (err : ErrorCode)
  | recordingEnabledMsg
  | recordingDisabledMsg (frames : Int)
  | recordingFrame (n : Int)
  | frameSaveFailed (err : ErrorCode)
  deriving DecidableEq, Repr

/-- Line 190 of the script: `hasattr(viewer, 'key_pressed') and
viewer.key_pressed == ord('r')`; the code point of the lowercase r key
is `114`. -/
def pressedR (inp : ViewerInput) : Bool :=
  inp.hasKeyAttr && (inp.keyPressed == 114)

/-- Lines 173-187: the one-shot save. It touches no cross-iteration state;
only its prints matter (`viewer.save_data` is viewer-owned and is modelled
as the per-iteration input `saveData`). -/
def saveOnceBlock (inp : ViewerInput) : List LogEvent :=
  if inp.saveData then
    if inp.saveErr = .SUCCESS then [.pointCloudSaved] else [.saveFailed inp.saveErr]
  else []

/-- Lines 189-197: toggle `recording_enabled` on the r key; on enabling,
`frame_count` is reset to `0`, on disabling it is reported and kept. -/
def toggleRecordingBlock (s : LoopState) (inp : ViewerInput) :
    LoopState × List LogEvent :=
  if pressedR inp then
    let enabled := !s.recording_enabled
    if enabled then (⟨true, 0⟩, [.recordingEnabledMsg])
    else (⟨false, s.frame_count⟩, [.recordingDisabledMsg s.frame_count])
  else (s, [])

/-- Lines 199-213: when recording is enabled, write one frame; on `SUCCESS`
increment `frame_count`, otherwise report the failure and leave the state
alone. -/
def continuousRecordingBlock (s : LoopState) (inp : ViewerInput) :
    LoopState × List LogEvent :=
  if s.recording_enabled then
    if inp.recordErr = .SUCCESS then
      (⟨s.recording_enabled, s.frame_count + 1⟩, [.recordingFrame (s.frame_count + 1)])
    else (s, [.frameSaveFailed inp.recordErr])
  else (s, [])

/-- One iteration of the `while viewer.is_available()` body (lines 164-213):
when `zed.grab()` is not `SUCCESS` the whole body is skipped, otherwise the
three blocks run in source order. -/
def loopBody (s : LoopState) (inp : ViewerInput) : LoopState × List LogEvent :=
  if inp.grabOk then
    let logs1 := saveOnceBlock inp
    let (s1, logs2) := toggleRecordingBlock s inp
    let (s2, logs3) := continuousRecordingBlock s1 inp
    (s2, logs1 ++ logs2 ++ logs3)
  else (s, [])

/-- The `while` loop run over a finite trace of iteration inputs (one entry
per time `viewer.is_available()` answered true). -/
def runLoop (s : LoopState) (inputs : List ViewerInput) : LoopState × List LogEvent :=
  match inputs with
  | [] => (s, [])
  | inp :: rest =>
    let (s1, logs1) := loopBody s inp
    let (s2, logs2) := runLoop s1 rest
    (s2, logs1 ++ logs2)

/-- How `main` ends: the early `exit()` when `zed.open` fails (lines
139-141), or the loop ran to completion with a final state. -/
inductive MainResult
  | exitedOnOpenFailure
  | finishedLoop (final : LoopState)
  deriving DecidableEq, Repr

/-- `main` after `parse_args` (lines 137-218): check the `zed.open` status;
on failure print the error and exit before the loop, otherwise run the loop
from `recording_enabled = False`, `frame_count = 0`. -/
def mainModel (openStatus : ErrorCode) (inputs : List ViewerInput) :
    MainResult × List LogEvent :=
  if openStatus ≠ .SUCCESS then
    (.exitedOnOpenFailure, [.openError openStatus])
  else
    let (s, logs) := runLoop ⟨false, 0⟩ inputs
    (.finishedLoop s, logs)

/-- How the `__main__` block ends: the early exit of lines 228-230 (with its
printed message), or a full run of `main()`, carrying the configuration
computed by `parse_args` and the loop outcome. -/
inductive StartResult
  | exitedBeforeMain (message : String)
  | ranMain (config : InputSource × Resolution × List String)
      (outcome : MainResult × List LogEvent)
  deriving DecidableEq, Repr

/-- The message printed by the mutual-exclusion guard (line 229). -/
def bothInputsMsg : String :=
  "Specify only input_svo_file or ip_address, or none to use wired camera, not both. Exit program"

/-- The `__main__` block (lines 221-232): if both `--input_svo_file` and
`--ip_address` are non-empty, print the message and exit before `main()` is
called; otherwise run `main()` (whose configuration step is `parse_args` and
whose loop is `mainModel`). -/
def programEntry (input_svo_file ip_address resolution : String) (current : Resolution)
    (openStatus : ErrorCode) (inputs : List ViewerInput) : StartResult :=
  if input_svo_file.length > 0 && ip_address.length > 0 then
    .exitedBeforeMain bothInputsMsg
  else
    .ranMain (parse_args input_svo_file ip_address resolution current)
      (mainModel openStatus inputs)

/-! ### Helper lemmas on the clamp and the normalized depth -/

/-- Clamping with ordered bounds lands in the closed interval. -/
theorem clampQ_mem (x lo hi : ℚ) (h : lo ≤ hi) :
    lo ≤ clampQ x lo hi ∧ clampQ x lo hi ≤ hi := by
  simp only [clampQ, minQ, maxQ]
  split_ifs <;> constructor <;> linarith

/-- Clamping a value at least `1` to `[0, 1]` gives `1`. -/
theorem clampQ_of_one_le (x : ℚ) (h : 1 ≤ x) : clampQ x 0 1 = 1 := by
  simp only [clampQ, minQ, maxQ]
  split_ifs <;> linarith

/-- Clamping a nonpositive value to `[0, 1]` gives `0`. -/
theorem clampQ_of_nonpos (x : ℚ) (h : x ≤ 0) : clampQ x 0 1 = 0 := by
  simp only [clampQ, minQ, maxQ]
  split_ifs <;> linarith

/-- The normalized depth always lies in `[0, 1]`. -/
theorem normalized_depth_mem (d : ℚ) :
    0 ≤ normalized_depth d ∧ normalized_depth d ≤ 1 :=
  clampQ_mem _ 0 1 (by norm_num)

/-- At or beyond the far bound the normalized depth is exactly `1`. -/
theorem normalized_depth_of_far (d : ℚ) (h : 10 ≤ d) : normalized_depth d = 1 := by
  have hden : (0:ℚ) < max_depth - min_depth := by norm_num [min_depth, max_depth]
  have h1 : (1:ℚ) ≤ (d - min_depth) / (max_depth - min_depth) := by
    rw [le_div_iff₀ hden]
    simp only [min_depth, max_depth]
    linarith
  exact clampQ_of_one_le _ h1

/-- At or below the near bound the normalized depth is exactly `0`. -/
theorem normalized_depth_of_near (d : ℚ) (h : d ≤ 1/2) : normalized_depth d = 0 := by
  have hden : (0:ℚ) < max_depth - min_depth := by norm_num [min_depth, max_depth]
  have h1 : (d - min_depth) / (max_depth - min_depth) ≤ 0 := by
    apply div_nonpos_of_nonpos_of_nonneg
    · simp only [min_depth]; linarith
    · linarith
  exact clampQ_of_nonpos _ h1

/-! ### C1 -/

/-- C1 counterexample: at depth exactly `10` (the far bound) the shader
color is not pure blue; its green channel is `1/100`. -/
theorem c1_counterexample : shaderColor 10 ≠ pureBlue := by
  have h10 : normalized_depth 10 = 1 := normalized_depth_of_far 10 (by norm_num)
  simp only [shaderColor, h10]
  norm_num [segCyanToBlue, pureBlue, RGB.mk.injEq]

/-- C1 (amended): for every depth at or beyond the far bound (10 m) the
shader returns the near-blue triple `(0, 1/100, 1)`, not pure blue. -/
theorem c1_far_color (d : ℚ) (h : 10 ≤ d) : shaderColor d = ⟨0, 1/100, 1⟩ := by
  have hnd : normalized_depth d = 1 := normalized_depth_of_far d h
  simp only [shaderColor, hnd]
  norm_num [segCyanToBlue, RGB.mk.injEq]

/-- C1 witness: the amended statement evaluated at depth `12`. -/
theorem c1_witness : (10:ℚ) ≤ 12 ∧ shaderColor 12 = ⟨0, 1/100, 1⟩ :=
  ⟨by norm_num, c1_far_color 12 (by norm_num)⟩

/-! ### C2 -/

/-- C2 counterexample: the gradient is not continuous at either breakpoint:
at `0.33` the first segment formula disagrees with the second, and at `0.67`
the second disagrees with the third. -/
theorem c2_counterexample :
    segRedToYellow (33/100) ≠ segYellowToCyan (33/100) ∧
    segYellowToCyan (67/100) ≠ segCyanToBlue (67/100) := by
  constructor <;> norm_num [segRedToYellow, segYellowToCyan, segCyanToBlue, RGB.mk.injEq]

/-- C2 (amended): the exact one-sided values at the two breakpoints: the
first segment reaches `(1, 99/100, 0)` at `0.33` while the second starts at
`(1, 1, 0)` there (a jump of `1/100` in green), and the second segment
reaches `(-1/50, 1, 51/50)` at `0.67` while the third starts at `(0, 1, 1)`
there (jumps of `1/50` in red and blue). -/
theorem c2_boundary_values :
    segRedToYellow (33/100) = ⟨1, 99/100, 0⟩ ∧
    segYellowToCyan (33/100) = pureYellow ∧
    segYellowToCyan (67/100) = ⟨-1/50, 1, 51/50⟩ ∧
    segCyanToBlue (67/100) = pureCyan := by
  refine ⟨?_, ?_, ?_, ?_⟩ <;>
    norm_num [segRedToYellow, segYellowToCyan, segCyanToBlue, pureYellow, pureCyan, RGB.mk.injEq]

/-! ### C3 -/

/-- C3 counterexample: at depth `2727/400` (6.8175 m, normalized depth
`133/200`) the red channel is negative and the blue channel exceeds `1`. -/
theorem c3_counterexample :
    (shaderColor (2727/400)).r < 0 ∧ 1 < (shaderColor (2727/400)).b := by
  have hnd : normalized_depth (2727/400) = 133/200 := by
    norm_num [normalized_depth, min_depth, max_depth, clampQ, minQ, maxQ]
  simp only [shaderColor, hnd]
  norm_num [segYellowToCyan]

/-- C3 (amended): every channel of the shader color lies in the slightly
widened interval `[-1/50, 51/50]`; the middle segment overshoots `[0, 1]` by
up to `1/50` on the red and blue channels. -/
theorem c3_channels_bounded (d : ℚ) :
    -1/50 ≤ (shaderColor d).r ∧ (shaderColor d).r ≤ 51/50 ∧
    -1/50 ≤ (shaderColor d).g ∧ (shaderColor d).g ≤ 51/50 ∧
    -1/50 ≤ (shaderColor d).b ∧ (shaderColor d).b ≤ 51/50 := by
  obtain ⟨h0, h1⟩ := normalized_depth_mem d
  simp only [shaderColor]
  split_ifs with hA hB <;>
    simp only [segRedToYellow, segYellowToCyan, segCyanToBlue] <;>
    refine ⟨by linarith, by linarith, by linarith, by linarith, by linarith, by linarith⟩

/-! ### C4 -/

/-- C4 counterexample: at depth `10` the shader disagrees with the spec's
endpoint-to-endpoint interpolation, which gives pure blue there. -/
theorem c4_counterexample : shaderColor 10 ≠ specGradient 10 := by
  have h10 : normalized_depth 10 = 1 := normalized_depth_of_far 10 (by norm_num)
  have h10q : clampQ ((10 - 1/2) / (10 - 1/2)) 0 1 = 1 := by
    norm_num [clampQ, minQ, maxQ]
  simp only [shaderColor, specGradient, h10, h10q]
  norm_num [segCyanToBlue, lerpRGB, pureCyan, pureBlue, RGB.mk.injEq]

/-- C4 (amended): the shader equals the interpolation that moves from each
segment's start color toward its end color at rate `3` per unit of
normalized depth (reaching the end color at the left breakpoint plus `1/3`,
short of the segment's right breakpoint). -/
theorem c4_equals_rate3_gradient (d : ℚ) : shaderColor d = amendedGradient d := by
  simp only [shaderColor, amendedGradient, normalized_depth, min_depth, max_depth]
  split_ifs <;>
    simp only [segRedToYellow, segYellowToCyan, segCyanToBlue, lerpRGB,
      pureRed, pureYellow, pureCyan, pureBlue, RGB.mk.injEq] <;>
    refine ⟨by ring, by ring, by ring⟩

/-! ### C5 -/

/-- C5: for every depth at or below the near bound (0.5 m) the shader
returns pure red. -/
theorem c5_near_is_pure_red (d : ℚ) (h : d ≤ 1/2) : shaderColor d = pureRed := by
  have hnd : normalized_depth d = 0 := normalized_depth_of_near d h
  simp only [shaderColor, hnd]
  norm_num [segRedToYellow, pureRed, RGB.mk.injEq]

/-- C5 witness: the statement evaluated at depth `0`. -/
theorem c5_witness : (0:ℚ) ≤ 1/2 ∧ shaderColor 0 = pureRed :=
  ⟨by norm_num, c5_near_is_pure_red 0 (by norm_num)⟩

/-! ### Helper lemmas on the main loop -/

/-- Unrolling one iteration of the loop. -/
theorem runLoop_cons (s : LoopState) (inp : ViewerInput) (rest : List ViewerInput) :
    runLoop s (inp :: rest) =
      ((runLoop (loopBody s inp).1 rest).1,
        (loopBody s inp).2 ++ (runLoop (loopBody s inp).1 rest).2) := by
  simp only [runLoop]

/-- Full characterization of the frame counter after one iteration: skipped
on a failed grab; after a toggle-on it is `1` or `0` depending on the write
status; otherwise it is incremented exactly when recording is on (after the
toggle) and the write succeeded. -/
theorem loopBody_frame_count (s : LoopState) (inp : ViewerInput) :
    (loopBody s inp).1.frame_count =
      if inp.grabOk = false then s.frame_count
      else if pressedR inp = true ∧ s.recording_enabled = false then
        (if inp.recordErr = .SUCCESS then 1 else 0)
      else if (if pressedR inp then !s.recording_enabled else s.recording_enabled) = true
          ∧ inp.recordErr = .SUCCESS then s.frame_count + 1
      else s.frame_count := by
  rcases s with ⟨rec, n⟩
  simp only [loopBody, saveOnceBlock, toggleRecordingBlock, continuousRecordingBlock]
  by_cases hg : inp.grabOk <;> by_cases hk : pressedR inp <;> cases rec <;>
    by_cases he : inp.recordErr = ErrorCode.SUCCESS <;>
    simp [hg, hk, he]

/-- When the r key is not pressed in an iteration, the recording flag is
unchanged by it. -/
theorem loopBody_recording (s : LoopState) (inp : ViewerInput)
    (hk : pressedR inp = false) :
    (loopBody s inp).1.recording_enabled = s.recording_enabled := by
  rcases s with ⟨rec, n⟩
  simp only [loopBody, saveOnceBlock, toggleRecordingBlock, continuousRecordingBlock]
  by_cases hg : inp.grabOk <;> cases rec <;>
    by_cases he : inp.recordErr = ErrorCode.SUCCESS <;>
    simp [hg, hk, he]

/-! ### C6 -/

/-- C6: for any failing status code, (a) a failed one-shot write inside the
loop only logs the failure and leaves the loop state unchanged, (b) a failed
continuous-recording write only logs the failure and leaves the loop state
unchanged, (c) the loop always continues with the remaining iterations, and
(d) a failed `zed.open` logs the error and ends `main` before the loop is
entered. -/
theorem c6_error_handling (c : ErrorCode) (hc : c ≠ .SUCCESS) :
    (∀ s inp, inp.grabOk = true → inp.saveData = true → inp.saveErr = c →
      pressedR inp = false → s.recording_enabled = false →
      loopBody s inp = (s, [.saveFailed c])) ∧
    (∀ s inp, inp.grabOk = true → inp.saveData = false → pressedR inp = false →
      s.recording_enabled = true → inp.recordErr = c →
      loopBody s inp = (s, [.frameSaveFailed c])) ∧
    (∀ s inp rest, (runLoop s (inp :: rest)).1 = (runLoop (loopBody s inp).1 rest).1) ∧
    (∀ inputs, mainModel c inputs = (.exitedOnOpenFailure, [.openError c])) := by
  refine ⟨?_, ?_, ?_, ?_⟩
  · intro s inp hGrab hSave hErr hKey hRec
    simp [loopBody, saveOnceBlock, toggleRecordingBlock, continuousRecordingBlock,
      hGrab, hSave, hErr, hKey, hRec, hc]
  · intro s inp hGrab hSave hKey hRec hErr
    simp [loopBody, saveOnceBlock, toggleRecordingBlock, continuousRecordingBlock,
      hGrab, hSave, hErr, hKey, hRec, hc]
  · intro s inp rest
    rw [runLoop_cons]
  · intro inputs
    simp [mainModel, hc]

/-- C6 witness: both write-failure shapes and the open failure, evaluated on
concrete states and inputs with failing code `1`. -/
theorem c6_witness :
    loopBody ⟨false, 0⟩ ⟨true, true, false, 0, .FAILURE 1, .SUCCESS⟩ =
      (⟨false, 0⟩, [.saveFailed (.FAILURE 1)]) ∧
    loopBody ⟨true, 5⟩ ⟨true, false, false, 0, .SUCCESS, .FAILURE 1⟩ =
      (⟨true, 5⟩, [.frameSaveFailed (.FAILURE 1)]) ∧
    mainModel (.FAILURE 1) [] = (.exitedOnOpenFailure, [.openError (.FAILURE 1)]) := by
  have h := c6_error_handling (.FAILURE 1) (by decide)
  exact ⟨h.1 _ _ rfl rfl rfl rfl rfl, h.2.1 _ _ rfl rfl rfl rfl rfl, h.2.2.2 []⟩

/-! ### C7 -/

/-- C7: when both `--input_svo_file` and `--ip_address` are non-empty, the
`__main__` block prints the message and exits before `main()`: no
configuration is computed and no camera is opened. -/
theorem c7_mutual_exclusion (svo ip resolution : String) (current : Resolution)
    (openStatus : ErrorCode) (inputs : List ViewerInput)
    (h1 : 0 < svo.length) (h2 : 0 < ip.length) :
    programEntry svo ip resolution current openStatus inputs =
      .exitedBeforeMain bothInputsMsg := by
  unfold programEntry
  split_ifs with h
  · rfl
  · exfalso
    simp only [Bool.and_eq_true, decide_eq_true_eq] at h
    exact h ⟨h1, h2⟩

/-- C7 witness: the statement evaluated on two concrete non-empty
arguments. -/
theorem c7_witness :
    programEntry "a.svo" "127.0.0.1" "" .AUTO .SUCCESS [] =
      .exitedBeforeMain bothInputsMsg :=
  c7_mutual_exclusion "a.svo" "127.0.0.1" "" .AUTO .SUCCESS [] (by decide) (by decide)

/-! ### C8 -/

/-- C8: the resolution chain of `parse_args` computes exactly the claim's
reference mapping: the first of the six names, in the order HD2K, HD1200,
HD1080, HD720, SVGA, VGA, contained in the argument wins, and any other
argument (the empty string included) leaves the current resolution. -/
theorem c8_resolution_mapping (s : String) (current : Resolution) :
    (parseArgsResolution s current).1 = resolutionSpec s current := by
  simp only [parseArgsResolution, resolutionSpec, firstMatch]
  split_ifs <;> rfl

/-! ### C9 -/

/-- C9: the frame counter (a) stays non-negative across an iteration, (b)
changes only as described by `loopBody_frame_count` (left alone on a failed
grab or while recording is off, set to `0` then possibly `1` on a toggle-on,
incremented by one exactly on a successful continuous write), and (c) is
monotonically non-decreasing over any run in which recording is enabled and
the r key is never pressed. -/
theorem c9_frame_counter_invariant :
    (∀ s inp, 0 ≤ s.frame_count → 0 ≤ (loopBody s inp).1.frame_count) ∧
    (∀ s inp, (loopBody s inp).1.frame_count =
      if inp.grabOk = false then s.frame_count
      else if pressedR inp = true ∧ s.recording_enabled = false then
        (if inp.recordErr = .SUCCESS then 1 else 0)
      else if (if pressedR inp then !s.recording_enabled else s.recording_enabled) = true
          ∧ inp.recordErr = .SUCCESS then s.frame_count + 1
      else s.frame_count) ∧
    (∀ s inputs, s.recording_enabled = true → (∀ inp ∈ inputs, pressedR inp = false) →
      s.frame_count ≤ (runLoop s inputs).1.frame_count) := by
  refine ⟨?_, ?_, ?_⟩
  · intro s inp h
    rw [loopBody_frame_count]
    split_ifs <;> omega
  · intro s inp
    exact loopBody_frame_count s inp
  · intro s inputs
    induction inputs generalizing s with
    | nil => intro _ _; simp [runLoop]
    | cons inp rest ih =>
      intro hrec hall
      have hk : pressedR inp = false := hall inp (by simp)
      have hcount : s.frame_count ≤ (loopBody s inp).1.frame_count := by
        rw [loopBody_frame_count]
        simp only [hk, hrec]
        split_ifs <;> simp_all
      have hrec1 : (loopBody s inp).1.recording_enabled = true :=
        (loopBody_recording s inp hk).trans hrec
      have htail := ih (loopBody s inp).1 hrec1 (fun i hi => hall i (by simp [hi]))
      rw [runLoop_cons]
      exact le_trans hcount htail

/-- C9 witness: non-negativity after one iteration and monotonicity over a
one-iteration recording run, from state `⟨true, 3⟩`. -/
theorem c9_witness :
    0 ≤ (loopBody ⟨true, 3⟩ ⟨true, false, false, 0, .SUCCESS, .SUCCESS⟩).1.frame_count ∧
    (3 : Int) ≤ (runLoop ⟨true, 3⟩ [⟨true, false, false, 0, .SUCCESS, .SUCCESS⟩]).1.frame_count := by
  refine ⟨c9_frame_counter_invariant.1 ⟨true, 3⟩ _ (by decide),
    c9_frame_counter_invariant.2.2 ⟨true, 3⟩ [⟨true, false, false, 0, .SUCCESS, .SUCCESS⟩] rfl ?_⟩
  intro i hi
  simp only [List.mem_singleton] at hi
  subst hi
  rfl

/-! ### C10 -/

/-- C10: a non-empty `--input_svo_file` that does not end in `.svo` never
selects the SVO input source, and with an empty `--ip_address` the selection
falls through silently (no print) to the default live input. -/
theorem c10_non_svo_ignored (svo ip : String) (_h1 : 0 < svo.length)
    (h2 : pyEndsWith svo ".svo" = false) :
    (∀ p, (parseArgsInput svo ip).1 ≠ .svoFile p) ∧
    parseArgsInput svo "" = (.liveDefault, []) := by
  constructor
  · intro p
    simp only [parseArgsInput, h2, Bool.and_false]
    split_ifs <;> simp_all
  · simp [parseArgsInput, h2]

/-- C10 witness: the statement evaluated at the non-empty non-`.svo`
argument `file.txt`, once alongside a concrete IP and once alone. -/
theorem c10_witness :
    (parseArgsInput "file.txt" "1.2.3.4").1 ≠ .svoFile "file.txt" ∧
    parseArgsInput "file.txt" "" = (.liveDefault, []) :=
  ⟨(c10_non_svo_ignored "file.txt" "1.2.3.4" (by decide) (by decide)).1 "file.txt",
    (c10_non_svo_ignored "file.txt" "" (by decide) (by decide)).2⟩
